import Mathlib

/-!
Shallow embedding of the `VideoPlayer` React component
(react-native-video-player, `src/unnamed/part_000` plus `src/styles.ts`).

The component is single-threaded and event-driven: every state mutation
happens inside one of its handlers (decoder callbacks, user taps, OS
notifications, timer callbacks).  We embed the component as a record
`Env` holding the React state (`PlayerState`), the mutable
`hideControlsTimer` ref, the set of pending `setTimeout` timers, a
fresh-id counter for timer handles, the list of `seek` commands issued
to the decoder, and the subscription/liveness flags of the mount
effect.  Each source handler becomes a function `Env → Env`.

JavaScript numbers are embedded as `JSVal`: a finite rational, `NaN`,
`±Infinity`, or `undefined`, with the IEEE-754/JS rules for the
arithmetic and comparisons the component actually performs (division
by zero produces `±Infinity` or `NaN`; `undefined` coerces to `NaN`
in arithmetic; comparisons involving `NaN`/`undefined` are false;
`x === 1` holds only for the finite value 1).
-/

namespace VideoPlayer

/-- A JavaScript number (or `undefined`) as the component can store it:
finite rational, `NaN`, `Infinity`, `-Infinity`, or `undefined`. -/
inductive JSVal where
  | fin : ℚ → JSVal
  | nan : JSVal
  | inf : JSVal
  | ninf : JSVal
  | undef : JSVal
  deriving DecidableEq, Repr

namespace JSVal

/-- JS unary minus (with `undefined` coercing to `NaN`). -/
def jsNeg : JSVal → JSVal
  | fin a => fin (-a)
  | nan => nan
  | inf => ninf
  | ninf => inf
  | undef => nan

/-- JS addition. -/
def jsAdd : JSVal → JSVal → JSVal
  | fin a, fin b => fin (a + b)
  | fin _, inf => inf
  | fin _, ninf => ninf
  | inf, fin _ => inf
  | inf, inf => inf
  | inf, ninf => nan
  | ninf, fin _ => ninf
  | ninf, inf => nan
  | ninf, ninf => ninf
  | _, _ => nan

/-- JS subtraction. -/
def jsSub (a b : JSVal) : JSVal := jsAdd a (jsNeg b)

/-- JS multiplication. -/
def jsMul : JSVal → JSVal → JSVal
  | fin a, fin b => fin (a * b)
  | fin a, inf => if a > 0 then inf else if a < 0 then ninf else nan
  | fin a, ninf => if a > 0 then ninf else if a < 0 then inf else nan
  | inf, fin b => if b > 0 then inf else if b < 0 then ninf else nan
  | ninf, fin b => if b > 0 then ninf else if b < 0 then inf else nan
  | inf, inf => inf
  | inf, ninf => ninf
  | ninf, inf => ninf
  | ninf, ninf => inf
  | _, _ => nan

/-- JS division.  Dividing a nonzero finite number by zero gives
`±Infinity`; `0 / 0` gives `NaN`. -/
def jsDiv : JSVal → JSVal → JSVal
  | fin a, fin b =>
      if b = 0 then (if a = 0 then nan else if a > 0 then inf else ninf)
      else fin (a / b)
  | fin _, inf => fin 0
  | fin _, ninf => fin 0
  | inf, fin b => if b ≥ 0 then inf else ninf
  | ninf, fin b => if b ≥ 0 then ninf else inf
  | _, _ => nan

/-- JS strict greater-than.  False whenever `NaN` or `undefined` is
involved. -/
def jsGt : JSVal → JSVal → Bool
  | fin a, fin b => decide (a > b)
  | fin _, ninf => true
  | inf, fin _ => true
  | inf, ninf => true
  | _, _ => false

/-- JS strict less-than. -/
def jsLt : JSVal → JSVal → Bool
  | fin a, fin b => decide (a < b)
  | fin _, inf => true
  | ninf, fin _ => true
  | ninf, inf => true
  | _, _ => false

/-- JS strict equality `x === q` against a finite literal:
true only for the finite value `q` (`NaN === q` is false). -/
def jsEq : JSVal → ℚ → Bool
  | fin a, q => decide (a = q)
  | _, _ => false

/-- Is this a finite JS number? -/
def isFinite : JSVal → Bool
  | fin _ => true
  | _ => false

end JSVal

open JSVal

/-- The `volumeState` record of the component:
`{isMute: boolean, volume: number | null}`. -/
structure VolumeStateProps where
  isMute : Bool
  volume : Option ℚ
  deriving DecidableEq, Repr

/-- A timer kind tells which `setTimeout` callback is pending:
the 3000 ms auto-hide of the controls, the 100 ms `setIsPlaying(true)`
grace timer of `handlePlayPause`, or the 100 ms
`Orientation.lockToPortrait` timer of `handleFullScreen`. -/
inductive TimerKind where
  | hide : TimerKind
  | gracePlay : TimerKind
  | graceOrientation : TimerKind
  deriving DecidableEq, Repr

/-- A pending `setTimeout`: its JS handle, its delay in ms, and which
callback it will run. -/
structure Timer where
  id : ℕ
  delay : ℕ
  kind : TimerKind
  deriving DecidableEq, Repr

/-- The React `useState` pieces of the component that the specified
behaviour depends on. -/
structure PlayerState where
  isLoading : Bool
  isPlaying : Bool
  isVideoReady : Bool
  videoDuration : ℚ
  videoSeek : JSVal
  showControls : Bool
  isSeekBarBusy : Bool
  systemVolume : Option ℚ
  volumeState : VolumeStateProps
  isFullScreen : Bool
  isStatusBarHidden : Bool
  deriving DecidableEq, Repr

/-- The component instance: React state plus the mutable
`hideControlsTimer` ref, the pending timers of the JS event loop, a
fresh timer-handle counter (JS `setTimeout` handles are positive), the
decoder `seek` commands issued so far, and the subscriptions/liveness
flag of the mount effect. -/
structure Env where
  state : PlayerState
  pending : List Timer
  hideRef : Option ℕ
  nextId : ℕ
  seekCmds : List JSVal
  volumeSubscribed : Bool
  dimensionSubscribed : Bool
  effectActive : Bool
  deriving DecidableEq, Repr

/-- `setTimeout(cb, delay)`: registers a pending timer and returns its
fresh handle. -/
def armTimer (delay : ℕ) (k : TimerKind) (e : Env) : Env × ℕ :=
  ({ e with pending := e.pending ++ [⟨e.nextId, delay, k⟩],
            nextId := e.nextId + 1 }, e.nextId)

/-- `clearTimeout(id)`: removes the pending timer with that handle (a
no-op if it already fired or was cleared). -/
def clearTimeoutE (id : ℕ) (e : Env) : Env :=
  { e with pending := e.pending.filter (fun t => t.id != id) }

/-- Initial `volumeState`: `useState({isMute: false, volume: null})`. -/
def initialVolumeState : VolumeStateProps := { isMute := false, volume := none }

/-- The `useState` initial values (`isPlaying` starts at
`autoplay ?? true`). -/
def initState (autoplay : Bool) : PlayerState :=
  { isLoading := true
    isPlaying := autoplay
    isVideoReady := false
    videoDuration := 0
    videoSeek := JSVal.fin 0
    showControls := false
    isSeekBarBusy := false
    systemVolume := none
    volumeState := initialVolumeState
    isFullScreen := false
    isStatusBarHidden := false }

/-- A freshly mounted component: no pending timer, `hideControlsTimer`
ref is `null`, both OS subscriptions registered by the mount effect are
live, no decoder command issued yet. -/
def initEnv (autoplay : Bool) : Env :=
  { state := initState autoplay
    pending := []
    hideRef := none
    nextId := 1
    seekCmds := []
    volumeSubscribed := true
    dimensionSubscribed := true
    effectActive := true }

/-! ### Handlers, one per source function -/

/-- `handlePlayPause` (source lines 258-268): if `videoSeek === 1`,
set `videoSeek` to 0, seek the decoder to 0, and arm a 100 ms timer
whose callback is `setIsPlaying(true)`; otherwise flip `isPlaying`. -/
def handlePlayPause (e : Env) : Env :=
  if jsEq e.state.videoSeek 1 then
    let e1 := { e with state := { e.state with videoSeek := JSVal.fin 0 },
                       seekCmds := e.seekCmds ++ [JSVal.fin 0] }
    (armTimer 100 TimerKind.gracePlay e1).1
  else
    { e with state := { e.state with isPlaying := !e.state.isPlaying } }

/-- `handleFullScreen` (lines 270-284): exiting fullscreen clears the
flags and arms a 100 ms timer for `Orientation.lockToPortrait`;
entering sets the flags (the `Immersive`/`Orientation` calls are
external side effects with no component state). -/
def handleFullScreen (e : Env) : Env :=
  if e.state.isFullScreen then
    let e1 := { e with state := { e.state with isFullScreen := false,
                                               isStatusBarHidden := false } }
    (armTimer 100 TimerKind.graceOrientation e1).1
  else
    { e with state := { e.state with isFullScreen := true,
                                     isStatusBarHidden := true } }

/-- `onProgress` (lines 286-293): clear `isLoading` if set; if the seek
bar is not busy, set `videoSeek := currentTime / seekableDuration`
(JS division: `0/0` is `NaN`, `t/0` is `±Infinity`). -/
def onProgress (currentTime seekableDuration : ℚ) (e : Env) : Env :=
  let e1 := if e.state.isLoading
            then { e with state := { e.state with isLoading := false } }
            else e
  if !e1.state.isSeekBarBusy then
    { e1 with state := { e1.state with
        videoSeek := jsDiv (JSVal.fin currentTime) (JSVal.fin seekableDuration) } }
  else e1

/-- `onEnd` (lines 295-298). -/
def onEnd (e : Env) : Env :=
  { e with state := { e.state with videoSeek := JSVal.fin 1, isPlaying := false } }

/-- `videoAreaClicked` (lines 300-318).  The `justClicked` local is
re-created on every render and is set and reset synchronously inside
the call, so under the single-threaded event model it never blocks a
call and is not part of the state.  When controls are hidden: show
them, clear any previously referenced hide timer, and arm a fresh
3000 ms hide timer; when shown: just hide them. -/
def videoAreaClicked (controls : Bool) (e : Env) : Env :=
  if controls then
    if e.state.showControls = false then
      let e1 := { e with state := { e.state with showControls := true } }
      let e2 := match e1.hideRef with
        | some id => clearTimeoutE id e1
        | none => e1
      let a := armTimer 3000 TimerKind.hide e2
      { a.1 with hideRef := some a.2 }
    else
      { e with state := { e.state with showControls := false } }
  else e

/-- The slider reports either a scalar or an array of numbers. -/
inductive SliderValue where
  | num : ℚ → SliderValue
  | arr : List ℚ → SliderValue
  deriving DecidableEq, Repr

/-- JS `val[0]` on an array (`undefined` when empty). -/
def index0 : List ℚ → JSVal
  | [] => JSVal.undef
  | h :: _ => JSVal.fin h

/-- `onSeekBarChange` (lines 320-325): only when `typeof val` is
`'object'` (an array) does it seek to `val[0] * videoDuration` and set
`videoSeek := val[0]`; a scalar does nothing. -/
def onSeekBarChange (val : SliderValue) (e : Env) : Env :=
  match val with
  | SliderValue.num _ => e
  | SliderValue.arr l =>
      { e with
        seekCmds := e.seekCmds ++ [jsMul (index0 l) (JSVal.fin e.state.videoDuration)],
        state := { e.state with videoSeek := index0 l } }

/-- `onLoad` (lines 327-330): record the duration and seek the decoder
to 0 (the player ref is mounted). -/
def onLoad (duration : ℚ) (e : Env) : Env :=
  { e with state := { e.state with videoDuration := duration },
           seekCmds := e.seekCmds ++ [JSVal.fin 0] }

/-- `onTouchStart` (lines 332-336): if the hide-timer ref is set and
controls are enabled, clear that timer (the ref itself is not nulled). -/
def onTouchStart (controls : Bool) (e : Env) : Env :=
  match e.hideRef with
  | some id => if controls then clearTimeoutE id e else e
  | none => e

/-- `onTouchEnd` (lines 338-344): if controls are enabled, arm a fresh
3000 ms hide timer and store its handle in the ref — without clearing
any previously pending timer. -/
def onTouchEnd (controls : Bool) (e : Env) : Env :=
  if controls then
    let a := armTimer 3000 TimerKind.hide e
    { a.1 with hideRef := some a.2 }
  else e

/-- `onSeekBarSlidingStart` (lines 346-348). -/
def onSeekBarSlidingStart (_val : SliderValue) (e : Env) : Env :=
  { e with state := { e.state with isSeekBarBusy := true } }

/-- `onSeekBarSlidingEnd` (lines 350-352). -/
def onSeekBarSlidingEnd (_val : SliderValue) (e : Env) : Env :=
  { e with state := { e.state with isSeekBarBusy := false } }

/-- `seekForward` (lines 354-363).  Computes
`newCurrentTime = videoSeek * videoDuration + 10` and
`newCurrentSeekValue = newCurrentTime / videoDuration`; when
`newCurrentTime > videoDuration` it clamps `newCurrentTime` to the
duration and assigns `newCurrentSeekValue = videoDuration` — the
duration itself, exactly as the source does. -/
def seekForward (e : Env) : Env :=
  let d := JSVal.fin e.state.videoDuration
  let nct := jsAdd (jsMul e.state.videoSeek d) (JSVal.fin 10)
  let ncsv := jsDiv nct d
  let nct2 := if jsGt nct d then d else nct
  let ncsv2 := if jsGt nct d then d else ncsv
  { e with seekCmds := e.seekCmds ++ [nct2],
           state := { e.state with videoSeek := ncsv2 } }

/-- `seekBackward` (lines 365-374): symmetric, clamping both the time
and the seek value to 0 when `newCurrentTime < 0`. -/
def seekBackward (e : Env) : Env :=
  let d := JSVal.fin e.state.videoDuration
  let nct := jsSub (jsMul e.state.videoSeek d) (JSVal.fin 10)
  let ncsv := jsDiv nct d
  let nct2 := if jsLt nct (JSVal.fin 0) then JSVal.fin 0 else nct
  let ncsv2 := if jsLt nct (JSVal.fin 0) then JSVal.fin 0 else ncsv
  { e with seekCmds := e.seekCmds ++ [nct2],
           state := { e.state with videoSeek := ncsv2 } }

/-- `toggleMuteButton` (lines 376-386): muting sets
`{isMute: true, volume: 0}`; unmuting sets
`{isMute: false, volume: systemVolume}`. -/
def toggleMuteButton (e : Env) : Env :=
  if e.state.volumeState.isMute = false then
    { e with state := { e.state with volumeState :=
        { e.state.volumeState with isMute := !e.state.volumeState.isMute,
                                   volume := some 0 } } }
  else
    { e with state := { e.state with volumeState :=
        { e.state.volumeState with isMute := !e.state.volumeState.isMute,
                                   volume := e.state.systemVolume } } }

/-- `onReady` (lines 388-394), the `onReadyForDisplay` handler: set
`isVideoReady := true`, show the controls, and arm a 3000 ms hide
timer — without clearing any previously pending one. -/
def onReady (e : Env) : Env :=
  let e1 := { e with state := { e.state with isVideoReady := true,
                                             showControls := true } }
  let a := armTimer 3000 TimerKind.hide e1
  { a.1 with hideRef := some a.2 }

/-- `onBuffer` (lines 396-403): sets `isLoading := true` exactly when
`(isBuffering && !isLoading) || (!isBuffering && isLoading && isVideoReady)`. -/
def onBuffer (isBuffering : Bool) (e : Env) : Env :=
  if (isBuffering && !e.state.isLoading) ||
     (!isBuffering && e.state.isLoading && e.state.isVideoReady) then
    { e with state := { e.state with isLoading := true } }
  else e

/-! ### Asynchronous callbacks of the mount effect -/

/-- The callback passed to `SystemSetting.addVolumeListener`
(lines 174-177): `setVolumeState({...volumeState, volume: data.value})`.
The mount effect runs exactly once (empty dependency array), so the
closure captures `volumeState` from the first render — the value
`captured` is fixed at registration time. -/
def volumeListenerCallback (captured : VolumeStateProps) (value : ℚ) (e : Env) : Env :=
  { e with state := { e.state with volumeState := { captured with volume := some value } } }

/-- Delivery of an OS volume-change event: the listener registered at
mount fires (with its stale captured `volumeState`, which is the
initial one) as long as the subscription is live. -/
def osVolumeNotification (value : ℚ) (e : Env) : Env :=
  if e.volumeSubscribed then volumeListenerCallback initialVolumeState value e else e

/-- Resolution of the mount effect's `SystemSetting.getVolume()`
promise (lines 168-173): guarded by the `isActive` liveness flag; sets
`systemVolume` and `setVolumeState({...volumeState, volume})` with the
same once-captured (initial) `volumeState`. -/
def getVolumeResolved (value : ℚ) (e : Env) : Env :=
  if e.effectActive then
    { e with state := { e.state with
        systemVolume := some value,
        volumeState := { initialVolumeState with volume := some value } } }
  else e

/-! ### Timer firing and unmount -/

/-- What each pending `setTimeout` callback does when it fires:
the hide timer runs `setShowControls(false)`, the play-grace timer runs
`setIsPlaying(true)`, the orientation timer only calls the external
`Orientation.lockToPortrait()`. -/
def timerEffect (k : TimerKind) (e : Env) : Env :=
  match k with
  | TimerKind.hide => { e with state := { e.state with showControls := false } }
  | TimerKind.gracePlay => { e with state := { e.state with isPlaying := true } }
  | TimerKind.graceOrientation => e

/-- The JS event loop fires a pending timer: it is removed from the
pending set and its callback runs (callbacks hold no liveness guard, so
they run even after unmount). -/
def fireTimer (id : ℕ) (e : Env) : Env :=
  match e.pending.find? (fun t => t.id == id) with
  | some t => timerEffect t.kind (clearTimeoutE id e)
  | none => e

/-- The mount effect's cleanup (lines 226-233), run at unmount: set the
`isActive` flag false, remove the volume listener, clear the hide timer
if its ref is set, and remove the dimension subscription.  Nothing else
is cancelled. -/
def unmountCleanup (e : Env) : Env :=
  let e1 := { e with effectActive := false, volumeSubscribed := false }
  let e2 := match e1.hideRef with
    | some id => clearTimeoutE id e1
    | none => e1
  { e2 with dimensionSubscribed := false }

/-- The effective output volume the render passes to the decoder:
`volume={volume ?? 0}` (line 472). -/
def effectiveVolume (s : PlayerState) : ℚ := s.volumeState.volume.getD 0

end VideoPlayer

/-! ## Claims -/

namespace VideoPlayer

/-! ### C1 — mute / system-volume restore -/

/-- The state after the mount effect's `getVolume` promise resolves
with system volume 1/2: unmuted, with a known system volume. -/
def c1Start : Env := getVolumeResolved (1/2) (initEnv true)

/-- C1 trace: toggle mute, OS volume notification with value 4/5,
toggle mute again. -/
def c1Final : Env :=
  toggleMuteButton (osVolumeNotification (4/5) (toggleMuteButton c1Start))

/-- C1 (code bug): from an unmuted state with system volume 1/2, after
toggling mute, an OS volume-change notification with value 4/5 does not
merely update what will be restored on unmute: the listener's stale
closure over the initial `volumeState` unmutes the player and writes
4/5 straight into the output volume, and `systemVolume` is never
updated.  Toggling mute again therefore yields effective output volume
0, not the last known system volume 4/5 as the claim requires. -/
theorem c1_volume_restore_code_bug :
    c1Start.state.volumeState.isMute = false ∧
    c1Start.state.systemVolume = some (1/2) ∧
    (toggleMuteButton c1Start).state.volumeState =
      { isMute := true, volume := some 0 } ∧
    (osVolumeNotification (4/5) (toggleMuteButton c1Start)).state.volumeState =
      { isMute := false, volume := some (4/5) } ∧
    (osVolumeNotification (4/5) (toggleMuteButton c1Start)).state.systemVolume =
      some (1/2) ∧
    effectiveVolume c1Final.state = 0 ∧
    effectiveVolume c1Final.state ≠ 4/5 := by
  refine ⟨?_, ?_, ?_, ?_, ?_, ?_, ?_⟩ <;>
    norm_num [c1Start, c1Final, initEnv, initState, initialVolumeState,
      getVolumeResolved, toggleMuteButton, osVolumeNotification,
      volumeListenerCallback, effectiveVolume]

/-! ### C2 — seekForward / seekBackward round trip -/

/-- A loaded 120-second video whose playback has ended:
`videoSeek = 1`, i.e. absolute time t = D. -/
def c2Env : Env := onEnd (onLoad 120 (initEnv true))

/-- C2 (code bug): at `videoSeek = 1` with duration 120, `seekForward`
stores the *duration* (120) into `videoSeek` instead of keeping the
fraction at 1 (the clamp assigns `newCurrentSeekValue = videoDuration`),
and the following `seekBackward` computes fraction 1439/12 ≈ 119.9 and
issues an unclamped decoder seek to 14390 seconds — not a return to
within rounding tolerance of fraction 1. -/
theorem c2_seek_roundtrip_code_bug :
    c2Env.state.videoSeek = JSVal.fin 1 ∧
    c2Env.state.videoDuration = 120 ∧
    (seekForward c2Env).state.videoSeek = JSVal.fin 120 ∧
    (seekBackward (seekForward c2Env)).state.videoSeek = JSVal.fin (1439/12) ∧
    (seekBackward (seekForward c2Env)).seekCmds =
      [JSVal.fin 0, JSVal.fin 120, JSVal.fin 14390] := by
  refine ⟨?_, ?_, ?_, ?_, ?_⟩ <;>
    norm_num [c2Env, initEnv, initState, onEnd, onLoad, seekForward, seekBackward,
      JSVal.jsMul, JSVal.jsAdd, JSVal.jsSub, JSVal.jsNeg, JSVal.jsDiv,
      JSVal.jsGt, JSVal.jsLt]

/-! ### C3 — at most one pending auto-hide timer -/

/-- C3 counterexample: tapping the video surface (arming hide timer 1)
and then receiving the first-frame-ready event leaves *two* hide timers
pending, because `onReady` arms without cancelling.  This refutes the
claim that at every reachable state at most one auto-hide timer is
pending. -/
theorem c3_counterexample :
    (onReady (videoAreaClicked true (initEnv true))).pending =
      [⟨1, 3000, TimerKind.hide⟩, ⟨2, 3000, TimerKind.hide⟩] ∧
    ¬ (onReady (videoAreaClicked true (initEnv true))).pending.length ≤ 1 := by
  decide

/-- C3 (amended): of the three operations that arm the 3-second hide
timer, only tap-to-show on the video surface first cancels the
previously referenced timer; first-frame-ready (`onReady`) and
control-surface touch-end arm a fresh timer without cancelling
anything (for the touch sequence, cancellation happens separately in
`onTouchStart`), so more than one hide timer can be pending. -/
theorem c3_single_timer_amended (e : Env) (id : ℕ)
    (href : e.hideRef = some id) (hshow : e.state.showControls = false) :
    (videoAreaClicked true e).pending =
      e.pending.filter (fun t => t.id != id) ++ [⟨e.nextId, 3000, TimerKind.hide⟩] ∧
    (onReady e).pending = e.pending ++ [⟨e.nextId, 3000, TimerKind.hide⟩] ∧
    (onTouchEnd true e).pending = e.pending ++ [⟨e.nextId, 3000, TimerKind.hide⟩] := by
  refine ⟨?_, ?_, ?_⟩ <;>
    simp [videoAreaClicked, onReady, onTouchEnd, href, hshow, clearTimeoutE, armTimer]

/-- Concrete input for the C3 witness: controls were shown by a tap and
auto-hidden by the timer firing, leaving a stale `hideRef = some 1`
with `showControls = false`. -/
def c3WitnessEnv : Env := fireTimer 1 (videoAreaClicked true (initEnv true))

/-- Witness for `c3_single_timer_amended` at `c3WitnessEnv`. -/
theorem c3_single_timer_amended_witness :
    c3WitnessEnv.hideRef = some 1 ∧
    c3WitnessEnv.state.showControls = false ∧
    (videoAreaClicked true c3WitnessEnv).pending =
      c3WitnessEnv.pending.filter (fun t => t.id != 1) ++
        [⟨c3WitnessEnv.nextId, 3000, TimerKind.hide⟩] :=
  ⟨by decide, by decide,
   (c3_single_timer_amended c3WitnessEnv 1 (by decide) (by decide)).1⟩

/-! ### C4 — unmount cleanup -/

/-- C4 trace: load a 120 s video, let it end (`videoSeek = 1`), enter
and exit fullscreen (arming the 100 ms orientation grace timer), press
play (arming the 100 ms play grace timer), then unmount. -/
def c4Env : Env :=
  unmountCleanup
    (handlePlayPause (handleFullScreen (handleFullScreen (onEnd (onLoad 120 (initEnv true))))))

/-- C4 (code bug): the unmount cleanup releases both subscriptions and
would clear the hide timer, but the two anonymous 100 ms grace timers
armed by `handlePlayPause` and by fullscreen exit are never tracked and
survive teardown; when the play-grace timer then fires, its callback
`setIsPlaying(true)` mutates component state after unmount. -/
theorem c4_unmount_leaves_grace_timers_code_bug :
    c4Env.pending = [⟨1, 100, TimerKind.graceOrientation⟩,
                     ⟨2, 100, TimerKind.gracePlay⟩] ∧
    c4Env.volumeSubscribed = false ∧
    c4Env.dimensionSubscribed = false ∧
    c4Env.effectActive = false ∧
    c4Env.state.isPlaying = false ∧
    (fireTimer 2 c4Env).state.isPlaying = true := by
  decide

end VideoPlayer

namespace VideoPlayer

open JSVal

/-! ### C5 — togglePlayPause at the end of the video -/

/-- C5 (confirmed): when `videoSeek = 1`, `handlePlayPause` resets the
fraction to 0, issues a decoder seek to 0 during the call, leaves
`isPlaying` untouched, and arms the 100 ms grace timer whose firing is
what sets `isPlaying := true`; in every other state it flips
`isPlaying` directly, issuing no decoder seek, arming no timer, and
leaving `videoSeek` unchanged.  (`hids` is the JS invariant that all
pending timer handles are older than the fresh-handle counter.) -/
theorem c5_toggle_play_pause_at_end (e : Env)
    (hids : ∀ t ∈ e.pending, t.id < e.nextId) :
    (e.state.videoSeek = JSVal.fin 1 →
      (handlePlayPause e).state.videoSeek = JSVal.fin 0 ∧
      (handlePlayPause e).seekCmds = e.seekCmds ++ [JSVal.fin 0] ∧
      (handlePlayPause e).state.isPlaying = e.state.isPlaying ∧
      (handlePlayPause e).pending =
        e.pending ++ [⟨e.nextId, 100, TimerKind.gracePlay⟩] ∧
      (fireTimer e.nextId (handlePlayPause e)).state.isPlaying = true) ∧
    (e.state.videoSeek ≠ JSVal.fin 1 →
      (handlePlayPause e).state.isPlaying = !e.state.isPlaying ∧
      (handlePlayPause e).seekCmds = e.seekCmds ∧
      (handlePlayPause e).pending = e.pending ∧
      (handlePlayPause e).state.videoSeek = e.state.videoSeek) := by
  constructor
  · intro hv
    have hEq : jsEq e.state.videoSeek 1 = true := by rw [hv]; simp [jsEq]
    have hp : (handlePlayPause e).pending =
        e.pending ++ [⟨e.nextId, 100, TimerKind.gracePlay⟩] := by
      simp [handlePlayPause, hEq, armTimer]
    have hfind : (handlePlayPause e).pending.find? (fun t => t.id == e.nextId) =
        some ⟨e.nextId, 100, TimerKind.gracePlay⟩ := by
      rw [hp, List.find?_append]
      have h1 : e.pending.find? (fun t => t.id == e.nextId) = none :=
        List.find?_eq_none.mpr (fun t ht => by
          simp only [beq_iff_eq]
          exact Nat.ne_of_lt (hids t ht))
      rw [h1]
      simp [List.find?]
    refine ⟨?_, ?_, ?_, hp, ?_⟩
    · simp [handlePlayPause, hEq, armTimer]
    · simp [handlePlayPause, hEq, armTimer]
    · simp [handlePlayPause, hEq, armTimer]
    · simp [fireTimer, hfind, timerEffect, clearTimeoutE]
  · intro hv
    have hEq : jsEq e.state.videoSeek 1 = false := by
      cases hq : e.state.videoSeek with
      | fin a =>
          simp only [jsEq, decide_eq_false_iff_not]
          intro h
          exact hv (by rw [hq, h])
      | nan => rfl
      | inf => rfl
      | ninf => rfl
      | undef => rfl
    refine ⟨?_, ?_, ?_, ?_⟩ <;> simp [handlePlayPause, hEq]

/-- Concrete input for the C5 witness: a loaded 120 s video that has
ended, so `videoSeek = 1`. -/
def c5Env : Env := onEnd (onLoad 120 (initEnv true))

/-- Witness for `c5_toggle_play_pause_at_end` at `c5Env`. -/
theorem c5_toggle_play_pause_at_end_witness :
    (handlePlayPause c5Env).state.videoSeek = JSVal.fin 0 ∧
    (handlePlayPause c5Env).seekCmds = c5Env.seekCmds ++ [JSVal.fin 0] ∧
    (handlePlayPause c5Env).state.isPlaying = c5Env.state.isPlaying ∧
    (handlePlayPause c5Env).pending =
      c5Env.pending ++ [⟨c5Env.nextId, 100, TimerKind.gracePlay⟩] ∧
    (fireTimer c5Env.nextId (handlePlayPause c5Env)).state.isPlaying = true :=
  (c5_toggle_play_pause_at_end c5Env (by decide)).1 (by decide)

/-! ### C6 — progress events while the seek bar is busy -/

/-- C6 (confirmed): while `isSeekBarBusy`, an `onProgress` event never
changes `videoSeek` (it may still clear `isLoading`). -/
theorem c6_progress_busy_preserves_seek (e : Env) (ct sd : ℚ)
    (h : e.state.isSeekBarBusy = true) :
    (onProgress ct sd e).state.videoSeek = e.state.videoSeek := by
  by_cases hl : e.state.isLoading = true <;> simp [onProgress, hl, h]

/-- Concrete input for the C6 witness: the user started dragging the
seek bar. -/
def c6Env : Env := onSeekBarSlidingStart (SliderValue.num 0) (initEnv true)

/-- Witness for `c6_progress_busy_preserves_seek` at `c6Env`. -/
theorem c6_progress_busy_preserves_seek_witness :
    c6Env.state.isSeekBarBusy = true ∧
    (onProgress 3 6 c6Env).state.videoSeek = c6Env.state.videoSeek :=
  ⟨by decide, c6_progress_busy_preserves_seek c6Env 3 6 (by decide)⟩

/-! ### C7 — the first-frame-ready handler -/

/-- C7 counterexample: from the initial state (where `isLoading` is
true), `onReady` leaves `isLoading` true — the handler does not clear
the Loading flag as the claim states. -/
theorem c7_counterexample :
    (initEnv true).state.isLoading = true ∧
    (onReady (initEnv true)).state.isLoading = true := by
  decide

/-- C7 (amended): `onReady` sets the video-ready flag, reveals the
controls, and arms the 3-second auto-hide timer, but leaves the
Loading flag unchanged (Loading is cleared by the first `onProgress`
event instead). -/
theorem c7_on_ready_amended (e : Env) :
    (onReady e).state.isVideoReady = true ∧
    (onReady e).state.showControls = true ∧
    (onReady e).pending = e.pending ++ [⟨e.nextId, 3000, TimerKind.hide⟩] ∧
    (onReady e).hideRef = some e.nextId ∧
    (onReady e).state.isLoading = e.state.isLoading := by
  refine ⟨?_, ?_, ?_, ?_, ?_⟩ <;> simp [onReady, armTimer]

/-! ### C8 — division guards for zero durations -/

/-- C8 counterexample: an `onProgress` event with
`seekableDuration = 0` is not guarded — it stores the non-finite JS
value `NaN` (`0 / 0`) into `videoSeek`. -/
theorem c8_counterexample :
    (initEnv true).state.isSeekBarBusy = false ∧
    (onProgress 0 0 (initEnv true)).state.videoSeek = JSVal.nan := by
  constructor
  · decide
  · simp [onProgress, initEnv, initState, initialVolumeState, jsDiv]

/-- C8 (amended): `seekForward` and `seekBackward` never store a
non-finite `videoSeek` when the current fraction is finite — at
duration 0 the boundary clamp always overwrites the division result
with a finite value, and for nonzero durations the divisor is nonzero;
but the progress-driven fraction update has no guard: only for a
nonzero `seekableDuration` does it store the finite fraction
`currentTime / seekableDuration`. -/
theorem c8_division_guard_amended (e : Env) (q ct sd : ℚ)
    (hq : e.state.videoSeek = JSVal.fin q)
    (hsd : sd ≠ 0) (hbusy : e.state.isSeekBarBusy = false) :
    (seekForward e).state.videoSeek.isFinite = true ∧
    (seekBackward e).state.videoSeek.isFinite = true ∧
    (onProgress ct sd e).state.videoSeek = JSVal.fin (ct / sd) := by
  refine ⟨?_, ?_, ?_⟩
  · by_cases hgt : q * e.state.videoDuration + 10 > e.state.videoDuration
    · simp [seekForward, hq, jsMul, jsAdd, jsGt, hgt, isFinite]
    · have hD : e.state.videoDuration ≠ 0 := by
        intro h0
        apply hgt
        rw [h0]
        norm_num
      simp [seekForward, hq, jsMul, jsAdd, jsGt, hgt, jsDiv, hD, isFinite]
  · by_cases hlt : q * e.state.videoDuration + -10 < 0
    · simp [seekBackward, hq, jsMul, jsSub, jsNeg, jsAdd, jsLt, hlt, isFinite]
    · have hD : e.state.videoDuration ≠ 0 := by
        intro h0
        apply hlt
        rw [h0]
        norm_num
      simp [seekBackward, hq, jsMul, jsSub, jsNeg, jsAdd, jsLt, hlt, jsDiv, hD, isFinite]
  · by_cases hl : e.state.isLoading = true <;>
      simp [onProgress, hl, hbusy, jsDiv, hsd]

/-- Witness for `c8_division_guard_amended` at the initial state. -/
theorem c8_division_guard_amended_witness :
    (seekForward (initEnv true)).state.videoSeek.isFinite = true ∧
    (seekBackward (initEnv true)).state.videoSeek.isFinite = true ∧
    (onProgress 3 6 (initEnv true)).state.videoSeek = JSVal.fin (3 / 6) :=
  c8_division_guard_amended (initEnv true) 0 3 6 rfl (by norm_num) rfl

/-! ### C9 — the buffering handler's exact condition -/

/-- C9 (confirmed): `onBuffer` sets `isLoading` to true exactly when
`(isBuffering && !isLoading) || (!isBuffering && isLoading && isVideoReady)`
holds, leaves it unchanged otherwise, and touches nothing else of the
component. -/
theorem c9_on_buffer_exact (e : Env) (b : Bool) :
    (onBuffer b e).state.isLoading =
      (if (b && !e.state.isLoading) ||
          (!b && e.state.isLoading && e.state.isVideoReady)
       then true else e.state.isLoading) ∧
    (onBuffer b e).state.isPlaying = e.state.isPlaying ∧
    (onBuffer b e).state.isVideoReady = e.state.isVideoReady ∧
    (onBuffer b e).state.videoSeek = e.state.videoSeek ∧
    (onBuffer b e).state.showControls = e.state.showControls ∧
    (onBuffer b e).state.volumeState = e.state.volumeState ∧
    (onBuffer b e).pending = e.pending ∧
    (onBuffer b e).seekCmds = e.seekCmds := by
  unfold onBuffer
  split <;> simp_all

/-! ### C10 — scalar versus array seek-bar values -/

/-- C10 (confirmed): a scalar slider value leaves the component
untouched (no decoder seek, `videoSeek` unchanged); an array value
issues a decoder seek to `val[0] * videoDuration` and sets
`videoSeek := val[0]`. -/
theorem c10_seek_bar_change_scalar_vs_array (e : Env) (q h : ℚ) (t : List ℚ) :
    onSeekBarChange (SliderValue.num q) e = e ∧
    (onSeekBarChange (SliderValue.arr (h :: t)) e).seekCmds =
      e.seekCmds ++ [JSVal.fin (h * e.state.videoDuration)] ∧
    (onSeekBarChange (SliderValue.arr (h :: t)) e).state.videoSeek =
      JSVal.fin h := by
  refine ⟨rfl, ?_, ?_⟩ <;> simp [onSeekBarChange, index0, jsMul]

end VideoPlayer
